import Mathlib

/-!
Shallow embedding of the k6 performance-test repository
(environment registry, threshold resolver, options builder, HTTP helper
layer, checks layer, rate-limit handler) together with theorems settling
the claims about it.

Conventions of the embedding:
* The process-wide variable table `__ENV` is modelled as a function
  `EnvMap := String → Option String` (absent variable = `none`).
* The JavaScript truthiness idiom `a || b` on strings treats both the
  absent value and the empty string as falsy; it is modelled by `jsOrS`
  and `jsOrD`.
* JavaScript records (plain objects used as string-keyed maps) are
  modelled as association lists with first-match lookup.  The object
  spread `\x7b ...a, ...b \x7d` is modelled observationally by
  `jsSpread a b := b ++ a`: lookup finds the entries of `b` first, so the
  later spread wins on key collision, and the key set is the union -
  exactly the lookup behaviour of the JavaScript spread.  (Enumeration
  order of keys is not modelled; no claim depends on it.)
* `parseInt` is modelled by `parseIntJS` : leading whitespace is skipped,
  then an optional sign and a longest digit prefix are read; `none`
  models `NaN`.  (The hexadecimal `0x` prefix of `parseInt` is not
  modelled; no input here uses it.)
* Numbers are `Int` where the source only ever computes with parsed
  integers and `ℚ` where the source divides (think-time computation,
  response durations in milliseconds).
-/

/-- The process environment table `__ENV`: variable name to value. -/
abbrev EnvMap := String → Option String

/-- JavaScript `v || d` for a possibly-absent string `v`:
absent and empty are falsy. -/
def jsOrS (v : Option String) (d : String) : String :=
  match v with
  | some s => if s = "" then d else s
  | none => d

/-- JavaScript `s || d` for a present string `s`: empty is falsy. -/
def jsOrD (s : String) (d : String) : String :=
  if s = "" then d else s

/-- Digit-prefix value of a character list: `none` when the list does not
start with a digit (the `NaN` case of `parseInt`). -/
def digitsVal (l : List Char) : Option Nat :=
  let ds := l.takeWhile Char.isDigit
  if ds = [] then none
  else some (ds.foldl (fun n c => n * 10 + (c.toNat - Char.toNat '0')) 0)

/-- JavaScript `parseInt(s)` (decimal): skip leading whitespace, optional
sign, longest digit prefix; `none` models `NaN`. -/
def parseIntJS (s : String) : Option Int :=
  match s.data.dropWhile Char.isWhitespace with
  | '-' :: rest => (digitsVal rest).map (fun n => -(n : Int))
  | '+' :: rest => (digitsVal rest).map (fun n => (n : Int))
  | rest => (digitsVal rest).map (fun n => (n : Int))

/-- JavaScript `x || null` / `x || undefined` on a parsed number:
`NaN` (here `none`) and `0` are falsy and give `none`. -/
def jsToNull (o : Option Int) : Option Int :=
  match o with
  | some n => if n = 0 then none else some n
  | none => none

/-- Association-list lookup is `List.lookup`; the JavaScript object spread
`\x7b ...a, ...b \x7d` is modelled by putting the entries of `b` first so
that `b` wins on key collision. -/
def jsSpread (a b : List (String × α)) : List (String × α) :=
  b ++ a

/-!  src/config/environments.ts  -/

/-- `EnvironmentConfig` of src/config/environments.ts. -/
structure EnvironmentConfig where
  name : String
  baseUrl : String
  apiKey : String
  maxVUs : Nat
  description : String
deriving DecidableEq, Repr

/-- The `dev` entry of the environment registry. -/
def devConfig (em : EnvMap) : EnvironmentConfig :=
  { name := "dev"
    baseUrl := jsOrS (em "DEV_BASE_URL") "https://dev.api.example.com"
    apiKey := jsOrS (em "DEV_API_KEY") ""
    maxVUs := 50
    description := "Development environment" }

/-- The `qa` entry of the environment registry. -/
def qaConfig (em : EnvMap) : EnvironmentConfig :=
  { name := "qa"
    baseUrl := jsOrS (em "QA_BASE_URL") "https://qa.api.example.com"
    apiKey := jsOrS (em "QA_API_KEY") ""
    maxVUs := 100
    description := "QA/Testing environment" }

/-- The `staging` entry of the environment registry. -/
def stagingConfig (em : EnvMap) : EnvironmentConfig :=
  { name := "staging"
    baseUrl := jsOrS (em "STAGING_BASE_URL") "https://staging.api.example.com"
    apiKey := jsOrS (em "STAGING_API_KEY") ""
    maxVUs := 200
    description := "Staging/Pre-production environment" }

/-- The `prod` entry of the environment registry. -/
def prodConfig (em : EnvMap) : EnvironmentConfig :=
  { name := "prod"
    baseUrl := jsOrS (em "BASE_URL") "https://api.practicesoftwaretesting.com"
    apiKey := jsOrS (em "API_KEY") ""
    maxVUs := 500
    description := "Production environment" }

/-- `const currentEnv = (__ENV.ENV || 'prod') as Environment` - the cast is
a TypeScript assertion only, so any non-empty string passes through. -/
def currentEnvName (em : EnvMap) : String :=
  jsOrS (em "ENV") "prod"

/-- Indexing the `environments` record: the record has exactly the four
keys dev/qa/staging/prod; indexing with any other string is the
JavaScript `undefined`, modelled by `none`. -/
def environments (em : EnvMap) (key : String) : Option EnvironmentConfig :=
  if key = "dev" then some (devConfig em)
  else if key = "qa" then some (qaConfig em)
  else if key = "staging" then some (stagingConfig em)
  else if key = "prod" then some (prodConfig em)
  else none

/-- `getCurrentEnvironment()` : `environments[currentEnv]`. -/
def getCurrentEnvironment (em : EnvMap) : Option EnvironmentConfig :=
  environments em (currentEnvName em)

/-!  src/config/thresholds.ts  -/

/-- `defaultThresholds` (values of `http_req_duration`, `http_req_failed`
and `http_reqs` are overridable through `__ENV`). -/
def defaultThresholds (em : EnvMap) : List (String × List String) :=
  [ ("http_req_duration",
      [ "p(95)<" ++ jsOrS (em "HTTP_REQ_DURATION_P95") "500"
      , "p(99)<" ++ jsOrS (em "HTTP_REQ_DURATION_P99") "1000" ])
  , ("http_req_failed", [ "rate<" ++ jsOrS (em "HTTP_REQ_FAILED_RATE") "0.01" ])
  , ("http_reqs", [ "rate>" ++ jsOrS (em "HTTP_REQS_RATE") "100" ])
  , ("checks", [ "rate>0.95" ]) ]

/-- `strictThresholds` for production validation. -/
def strictThresholds : List (String × List String) :=
  [ ("http_req_duration", [ "p(95)<300", "p(99)<800" ])
  , ("http_req_failed", [ "rate<0.005" ])
  , ("http_reqs", [ "rate>200" ])
  , ("checks", [ "rate>0.99" ]) ]

/-- `relaxedThresholds` for development/testing. -/
def relaxedThresholds : List (String × List String) :=
  [ ("http_req_duration", [ "p(95)<1000", "p(99)<2000" ])
  , ("http_req_failed", [ "rate<0.05" ])
  , ("http_reqs", [ "rate>50" ])
  , ("checks", [ "rate>0.90" ]) ]

/-- `endpointThresholds` : endpoint-specific thresholds keyed by tagged
metric expressions. -/
def endpointThresholds : List (String × List String) :=
  [ ("http_req_duration\x7bendpoint:login\x7d", [ "p(95)<200", "p(99)<500" ])
  , ("http_req_duration\x7bendpoint:list\x7d", [ "p(95)<500", "p(99)<1000" ])
  , ("http_req_duration\x7bendpoint:create\x7d", [ "p(95)<800", "p(99)<1500" ])
  , ("http_req_duration\x7bendpoint:update\x7d", [ "p(95)<800", "p(99)<1500" ])
  , ("http_req_duration\x7bendpoint:delete\x7d", [ "p(95)<300", "p(99)<600" ]) ]

/-- `getThresholdsForEnvironment(env)`. -/
def getThresholdsForEnvironment (em : EnvMap) (env : String) :
    List (String × List String) :=
  if env = "prod" then jsSpread strictThresholds endpointThresholds
  else if env = "dev" then relaxedThresholds
  else jsSpread (defaultThresholds em) endpointThresholds

/-!  src/config/options.ts - options builder  -/

/-- One load stage: duration string and target VU count; the target is
`parseInt` output, so `none` models `NaN`. -/
structure Stage where
  duration : String
  target : Option Int
deriving DecidableEq, Repr

/-- The slice of `k6/options` `Options` that the configuration module
populates. -/
structure Options where
  userAgent : Option String := none
  batch : Option Nat := none
  batchPerHost : Option Nat := none
  noConnectionReuse : Option Bool := none
  noVUConnectionReuse : Option Bool := none
  tags : List (String × String) := []
  thresholds : List (String × List String) := []
  stages : Option (List Stage) := none
  vus : Option Nat := none
  duration : Option String := none
deriving DecidableEq, Repr

/-- `baseOptions` shared across all test types. -/
def baseOptions (em : EnvMap) : Options :=
  { userAgent := some "k6-performance-tests/1.0"
    batch := some 20
    batchPerHost := some 6
    noConnectionReuse := some false
    noVUConnectionReuse := some false
    tags := [ ("testType", "performance"), ("environment", jsOrS (em "ENV") "prod") ]
    thresholds := getThresholdsForEnvironment em (jsOrS (em "ENV") "prod") }

/-- `loadTestOptions` : three stages (ramp-up, steady, ramp-down). -/
def loadTestOptions (em : EnvMap) : Options :=
  { baseOptions em with
    stages := some
      [ ⟨jsOrS (em "RAMP_UP_DURATION") "30s", parseIntJS (jsOrS (em "VUS") "10")⟩
      , ⟨jsOrS (em "DURATION") "5m", parseIntJS (jsOrS (em "VUS") "10")⟩
      , ⟨jsOrS (em "RAMP_DOWN_DURATION") "30s", some 0⟩ ]
    thresholds := defaultThresholds em }

/-- `stressTestOptions` : eight ramp/hold stages plus a final ramp-down,
nine stages in total. -/
def stressTestOptions (em : EnvMap) : Options :=
  { baseOptions em with
    stages := some
      [ ⟨"2m", some 50⟩, ⟨"5m", some 50⟩
      , ⟨"2m", some 100⟩, ⟨"5m", some 100⟩
      , ⟨"2m", some 200⟩, ⟨"5m", some 200⟩
      , ⟨"2m", some 300⟩, ⟨"5m", some 300⟩
      , ⟨"10m", some 0⟩ ] }

/-- `spikeTestOptions` : six stages (baseline, spike, sustain, return,
recovery, ramp-down). -/
def spikeTestOptions (em : EnvMap) : Options :=
  { baseOptions em with
    stages := some
      [ ⟨"1m", some 10⟩, ⟨"30s", some 200⟩, ⟨"3m", some 200⟩
      , ⟨"30s", some 10⟩, ⟨"3m", some 10⟩, ⟨"30s", some 0⟩ ] }

/-- `enduranceTestOptions` : ramp, four-hour soak, ramp-down. -/
def enduranceTestOptions (em : EnvMap) : Options :=
  { baseOptions em with
    stages := some [ ⟨"5m", some 50⟩, ⟨"4h", some 50⟩, ⟨"5m", some 0⟩ ] }

/-- `smokeTestOptions` : one VU for one minute, relaxed local thresholds. -/
def smokeTestOptions (em : EnvMap) : Options :=
  { baseOptions em with
    vus := some 1
    duration := some "1m"
    thresholds :=
      [ ("http_req_failed", [ "rate<0.05" ])
      , ("http_req_duration", [ "p(95)<2000" ]) ] }

/-- JavaScript `toLowerCase()` : character-wise lowering. -/
def jsToLower (s : String) : String :=
  String.mk (s.data.map Char.toLower)

/-- `getTestOptions(testType)` : switch on `testType.toLowerCase()` with
fallthrough of `endurance`/`soak` and `default` returning the load
profile. -/
def getTestOptions (em : EnvMap) (testType : String) : Options :=
  let t := jsToLower testType
  if t = "load" then loadTestOptions em
  else if t = "stress" then stressTestOptions em
  else if t = "spike" then spikeTestOptions em
  else if t = "endurance" ∨ t = "soak" then enduranceTestOptions em
  else if t = "smoke" then smokeTestOptions em
  else loadTestOptions em

/-!  src/utils/http.ts  -/

/-- Character-level startsWith used by the URL builder (the source checks
a single leading slash). -/
def strStartsWith (s : String) (c : Char) : Bool :=
  s.data.head? = some c

/-- Character-level endsWith on the final character. -/
def strEndsWith (s : String) (c : Char) : Bool :=
  s.data.getLast? = some c

/-- Drop the final character of a string. -/
def dropLastStr (s : String) : String :=
  String.mk s.data.dropLast

/-- `baseUrl.replace(/\/$/, '')` : the regex is anchored and unrepeated,
so it removes at most one trailing slash. -/
def stripTrailingSlash (s : String) : String :=
  if strEndsWith s '/' then dropLastStr s else s

/-- `endpoint.startsWith('/') ? endpoint : '/' + endpoint`. -/
def cleanEndpoint (e : String) : String :=
  if strStartsWith e '/' then e else "/" ++ e

/-- `buildUrl(endpoint)` with the base URL of the resolved current
environment passed explicitly. -/
def buildUrl (baseUrl endpoint : String) : String :=
  stripTrailingSlash baseUrl ++ cleanEndpoint endpoint

/-- `getDefaultHeaders(includeAuth)` with the resolved current environment
passed explicitly: JSON content type and accept headers, plus the API key
header when authentication is requested and the key is non-empty
(`if (env.apiKey)` - the empty string is falsy). -/
def getDefaultHeaders (env : EnvironmentConfig) (includeAuth : Bool) :
    List (String × String) :=
  let headers := [ ("Content-Type", "application/json"), ("Accept", "application/json") ]
  if includeAuth then
    if env.apiKey = "" then headers
    else headers ++ [ ("X-API-Key", env.apiKey) ]
  else headers

/-- The caller-facing `RequestOptions` bag (`params`); an absent `params`
object is modelled by the default values. -/
structure RequestParams where
  headers : List (String × String) := []
  tags : List (String × String) := []
  timeout : Option String := none
  endpoint : Option String := none
  includeAuth : Option Bool := none
deriving Repr

/-- The outgoing request each verb helper hands to the k6 primitive. -/
structure HttpRequest where
  method : String
  url : String
  headers : List (String × String)
  tags : List (String × String)
  timeout : Option String := none
deriving Repr

/-- `\x7b ...getDefaultHeaders(params?.includeAuth !== false),
...params?.headers \x7d` - identical in all five verb helpers. -/
def requestHeaders (env : EnvironmentConfig) (p : RequestParams) :
    List (String × String) :=
  jsSpread (getDefaultHeaders env (p.includeAuth ≠ some false)) p.headers

/-- `\x7b endpoint: params?.endpoint || verb, ...params?.tags \x7d`. -/
def requestTags (p : RequestParams) (verb : String) : List (String × String) :=
  jsSpread [ ("endpoint", jsOrS p.endpoint verb) ] p.tags

/-- `httpGet(endpoint, params)` : the request passed to `http.get`. -/
def httpGet (env : EnvironmentConfig) (endpoint : String) (p : RequestParams) :
    HttpRequest :=
  { method := "GET"
    url := buildUrl env.baseUrl endpoint
    headers := requestHeaders env p
    tags := requestTags p "get"
    timeout := p.timeout }

/-- `httpPost(endpoint, payload, params)` : the request passed to
`http.post` (the serialized payload itself plays no role in the claims
and is not carried). -/
def httpPost (env : EnvironmentConfig) (endpoint : String) (p : RequestParams) :
    HttpRequest :=
  { method := "POST"
    url := buildUrl env.baseUrl endpoint
    headers := requestHeaders env p
    tags := requestTags p "post"
    timeout := p.timeout }

/-- `httpPut(endpoint, payload, params)`. -/
def httpPut (env : EnvironmentConfig) (endpoint : String) (p : RequestParams) :
    HttpRequest :=
  { method := "PUT"
    url := buildUrl env.baseUrl endpoint
    headers := requestHeaders env p
    tags := requestTags p "put"
    timeout := p.timeout }

/-- `httpPatch(endpoint, payload, params)`. -/
def httpPatch (env : EnvironmentConfig) (endpoint : String) (p : RequestParams) :
    HttpRequest :=
  { method := "PATCH"
    url := buildUrl env.baseUrl endpoint
    headers := requestHeaders env p
    tags := requestTags p "patch"
    timeout := p.timeout }

/-- `httpDelete(endpoint, params)` : the request passed to `http.del`. -/
def httpDelete (env : EnvironmentConfig) (endpoint : String) (p : RequestParams) :
    HttpRequest :=
  { method := "DELETE"
    url := buildUrl env.baseUrl endpoint
    headers := requestHeaders env p
    tags := requestTags p "delete"
    timeout := p.timeout }

/-!  Response model and src/utils/checks.ts

The k6 response object is external runtime state; it is modelled by the
observable fields the repository code reads: status, timing, body, the
outcome of `r.json()` (which either throws - modelled by `none` - or
yields a JSON value), and the header table.  The k6 `check(response, obj)`
primitive records every named predicate and returns whether all of them
passed; it is modelled by the conjunction of the predicates.  -/

/-- JSON values, as produced by a successful `r.json()`. -/
inductive Json where
  | null : Json
  | bool (b : Bool) : Json
  | num (q : ℚ) : Json
  | str (s : String) : Json
  | arr (elems : List Json) : Json
  | obj (fields : List (String × Json)) : Json
deriving Repr

/-- A response body: a string, a binary buffer (only its length is
observable to the checks), or the null/undefined case. -/
inductive JsBody where
  | str (s : String) : JsBody
  | buf (byteLength : Nat) : JsBody
  | nullish : JsBody
deriving DecidableEq, Repr

/-- The slice of the k6 HTTP response the repository code reads. -/
structure Response where
  status : Int := 200
  durationMs : ℚ := 0
  body : JsBody := JsBody.nullish
  jsonResult : Option Json := none
  headers : String → Option String := fun _ => none

/-- JavaScript property access `current[field]` on a parsed JSON value:
defined on objects by key lookup; on every non-object the named property
is absent (accessing a property of `null` throws, but every such access
in the source sits inside a try/catch that converts it to a false
result, so the observable behaviour coincides with absence). -/
def getProp (j : Json) (field : String) : Option Json :=
  match j with
  | Json.obj fields => fields.lookup field
  | _ => none

/-- The traversal loop of `checkJsonHasField` : walk the split path,
returning false as soon as `current[field] === undefined`. -/
def jsonPathAux (j : Json) (fields : List String) : Bool :=
  match fields with
  | [] => true
  | f :: rest =>
    match getProp j f with
    | none => false
    | some v => jsonPathAux v rest

/-- JavaScript strict equality `===` between a freshly parsed JSON value
and a caller-supplied expected value: structural on primitives; an object
or array compares by reference and a freshly parsed value is never
reference-equal to a caller-supplied one. -/
def jsStrictEq (a b : Json) : Bool :=
  match a, b with
  | Json.null, Json.null => true
  | Json.bool x, Json.bool y => x = y
  | Json.num x, Json.num y => x = y
  | Json.str x, Json.str y => x = y
  | _, _ => false

/-- The traversal loop of `checkJsonFieldEquals` : walk the split path,
then compare the reached value with the expected one. -/
def jsonPathEqAux (j : Json) (fields : List String) (expected : Json) : Bool :=
  match fields with
  | [] => jsStrictEq j expected
  | f :: rest =>
    match getProp j f with
    | none => false
    | some v => jsonPathEqAux v rest expected

/-- JavaScript `fieldPath.split(sep)` for a single-character separator. -/
def splitCharAux (sep : Char) : List Char → List Char → List String
  | [], acc => [String.mk acc.reverse]
  | c :: rest, acc =>
    if c = sep then String.mk acc.reverse :: splitCharAux sep rest []
    else splitCharAux sep rest (c :: acc)

/-- JavaScript `s.split(sep)` on a whole string. -/
def splitChar (sep : Char) (s : String) : List String :=
  splitCharAux sep s.data []

/-- `checkJsonHasField(response, fieldPath)` : a thrown `r.json()` is
caught and yields false. -/
def checkJsonHasField (r : Response) (fieldPath : String) : Bool :=
  match r.jsonResult with
  | none => false
  | some j => jsonPathAux j (splitChar '.' fieldPath)

/-- `checkJsonFieldEquals(response, fieldPath, expectedValue)`. -/
def checkJsonFieldEquals (r : Response) (fieldPath : String) (expected : Json) :
    Bool :=
  match r.jsonResult with
  | none => false
  | some j => jsonPathEqAux j (splitChar '.' fieldPath) expected

/-- The body-not-empty predicate shared by `checkBodyNotEmpty` and
`checkGetSuccess`. -/
def bodyNotEmpty (b : JsBody) : Bool :=
  match b with
  | JsBody.str s => s.length > 0
  | JsBody.buf n => n > 0
  | JsBody.nullish => false

/-- `checkGetSuccess(response, maxResponseTime = 1000)` : the conjunction
of the four registered predicates (status 200, response time below the
ceiling, non-empty body, parseable JSON). -/
def checkGetSuccess (r : Response) (maxResponseTime : ℚ := 1000) : Bool :=
  (r.status = 200) && (r.durationMs < maxResponseTime)
    && bodyNotEmpty r.body && r.jsonResult.isSome

/-!  src/utils/rate-limit.ts  -/

/-- `RateLimitInfo` : parsed rate-limit headers. -/
structure RateLimitInfo where
  limit : Int
  remaining : Int
  reset : Int
  retryAfter : Option Int
deriving DecidableEq, Repr

/-- The raw string fed to `parseInt` for a header pair:
`headers[h1] || headers[h2] || '0'`. -/
def rlHeaderRaw (headers : String → Option String) (h1 h2 : String) : String :=
  jsOrS (headers h1) (jsOrS (headers h2) "0")

/-- `extractRateLimitInfo(response)` on the header table:
`limit`, `reset` and `retryAfter` go through `parseInt(...) || null` (so
zero and non-numeric values collapse to the absent case), `remaining`
through `parseInt(...) || 0`; when `limit` is null the whole record is
null, otherwise `reset` is materialised as `reset || 0`. -/
def extractRateLimitInfo (headers : String → Option String) :
    Option RateLimitInfo :=
  let limit := jsToNull (parseIntJS (rlHeaderRaw headers "X-RateLimit-Limit" "X-Rate-Limit-Limit"))
  let remaining := (parseIntJS (rlHeaderRaw headers "X-RateLimit-Remaining" "X-Rate-Limit-Remaining")).getD 0
  let reset := jsToNull (parseIntJS (rlHeaderRaw headers "X-RateLimit-Reset" "X-Rate-Limit-Reset"))
  let retryAfter := jsToNull (parseIntJS (rlHeaderRaw headers "Retry-After" "retry-after"))
  match limit with
  | none => none
  | some l => some { limit := l, remaining := remaining, reset := reset.getD 0, retryAfter := retryAfter }

/-- `isRateLimited(response)` : status 429, or extractable info with a
zero remaining count (the metric increments are observability sinks and
are not modelled). -/
def isRateLimited (r : Response) : Bool :=
  if r.status = 429 then true
  else
    match extractRateLimitInfo r.headers with
    | some info => info.remaining = 0
    | none => false

/-- `handleRateLimit(response)` at current epoch second `now` : the pair
of the returned boolean and the number of seconds passed to `sleep`
(`none` when no wait happened).  The wait starts at the 60-second
default, is replaced by a truthy `retryAfter`, otherwise by
`max(reset - now, 0) + 1` for a truthy `reset`. -/
def handleRateLimit (r : Response) (now : Int) : Bool × Option Int :=
  if !(isRateLimited r) then (false, none)
  else
    let info := extractRateLimitInfo r.headers
    let waitSeconds : Int :=
      match info with
      | some i =>
        match i.retryAfter with
        | some ra => ra
        | none => if i.reset ≠ 0 then max (i.reset - now) 0 + 1 else 60
      | none => 60
    (true, some waitSeconds)

/-- `calculateOptimalThinkTime(response)` at current epoch second `now` :
1 second when no info is extractable or the remaining count is zero,
otherwise `max((1 / (remaining / max(reset - now, 1))) * 1.2, 0.1)`. -/
def calculateOptimalThinkTime (r : Response) (now : Int) : ℚ :=
  match extractRateLimitInfo r.headers with
  | none => 1
  | some info =>
    if info.remaining = 0 then 1
    else
      let secondsUntilReset : Int := max (info.reset - now) 1
      let safeRequestsPerSecond : ℚ := (info.remaining : ℚ) / (secondsUntilReset : ℚ)
      let optimalThinkTime : ℚ := (1 / safeRequestsPerSecond) * (6 / 5)
      max optimalThinkTime (1 / 10)

/-- The natural optional version of the dot-path traversal: `none` as
soon as a key along the path is absent.  Used to state the traversal
claims. -/
def jsonPathLookup : Json → List String → Option Json
  | j, [] => some j
  | j, f :: rest =>
    match getProp j f with
    | none => none
    | some v => jsonPathLookup v rest

/-!  Helper lemmas  -/

/-- Lookup in a spread: the later (second) object wins on key collision,
and a key found in neither is absent. -/
theorem lookup_jsSpread (a b : List (String × α)) (k : String) :
    (jsSpread a b).lookup k = (b.lookup k).or (a.lookup k) := by
  induction b with
  | nil => simp [jsSpread]
  | cons p t ih =>
    obtain ⟨k0, v0⟩ := p
    by_cases h : k = k0
    · subst h
      simp [jsSpread, List.lookup]
    · simp only [jsSpread, List.cons_append, List.lookup, beq_false_of_ne h] at *
      simpa using ih

/-- A failing optional traversal forces the has-field loop to report
false. -/
theorem jsonPathAux_false_of_lookup_none :
    ∀ (fields : List String) (j : Json),
      jsonPathLookup j fields = none → jsonPathAux j fields = false := by
  intro fields
  induction fields with
  | nil => intro j h; simp [jsonPathLookup] at h
  | cons f rest ih =>
    intro j h
    simp only [jsonPathLookup] at h
    simp only [jsonPathAux]
    cases hg : getProp j f with
    | none => simp
    | some v =>
      simp only [hg] at h
      exact ih v h

/-- A failing optional traversal forces the field-equality loop to report
false, whatever the expected value. -/
theorem jsonPathEqAux_false_of_lookup_none :
    ∀ (fields : List String) (j : Json) (expected : Json),
      jsonPathLookup j fields = none → jsonPathEqAux j fields expected = false := by
  intro fields
  induction fields with
  | nil => intro j expected h; simp [jsonPathLookup] at h
  | cons f rest ih =>
    intro j expected h
    simp only [jsonPathLookup] at h
    simp only [jsonPathEqAux]
    cases hg : getProp j f with
    | none => simp
    | some v =>
      simp only [hg] at h
      exact ih v expected h

/-!  Claim theorems  -/

/-- C1 (counterexample): with `ENV` set to the unrecognized name `local`,
`getCurrentEnvironment()` is the JavaScript `undefined`, not the prod
entry (which does exist in the registry). -/
theorem c1_counterexample :
    getCurrentEnvironment (fun k => if k = "ENV" then some "local" else none) = none ∧
    environments (fun k => if k = "ENV" then some "local" else none) "prod" =
      some (prodConfig (fun k => if k = "ENV" then some "local" else none)) := by
  exact ⟨by decide, by decide⟩

/-- C1 (amended): when `ENV` is unset or empty, `getCurrentEnvironment()`
returns the prod entry of the registry; when `ENV` is a non-empty string
outside dev/qa/staging/prod, the lookup yields no entry at all
(`undefined`), not the prod entry. -/
theorem c1_env_fallback (em : EnvMap) :
    (em "ENV" = none ∨ em "ENV" = some "" →
      getCurrentEnvironment em = some (prodConfig em)) ∧
    (∀ s, em "ENV" = some s → s ≠ "" →
      s ≠ "dev" → s ≠ "qa" → s ≠ "staging" → s ≠ "prod" →
      getCurrentEnvironment em = none) := by
  constructor
  · rintro (h | h) <;>
      simp [getCurrentEnvironment, currentEnvName, jsOrS, h, environments]
  · intro s hs hne hd hq hst hp
    simp [getCurrentEnvironment, currentEnvName, jsOrS, hs, hne, environments,
      hd, hq, hst, hp]

/-- C1 (witness): the amended theorem applied to the empty process
environment. -/
theorem c1_env_fallback_witness :
    getCurrentEnvironment (fun _ => none) = some (prodConfig (fun _ => none)) :=
  (c1_env_fallback (fun _ => none)).1 (Or.inl rfl)

/-- C2 (counterexample): the stress profile has nine stages, not eight. -/
theorem c2_counterexample :
    ((getTestOptions (fun _ => none) "stress").stages.getD []).length = 9 ∧
    ((getTestOptions (fun _ => none) "stress").stages.getD []).length ≠ 8 := by
  exact ⟨by decide, by decide⟩

/-- C2 (amended): `getTestOptions` resolves each recognized test-type
string (case-insensitively) to its predefined profile - load with three
stages, stress with nine stages (eight progressive ramp/hold stages plus
a final ramp-down), spike with six stages, endurance with three stages
(also reachable as `soak`), smoke with no stage list - and every string
whose lowercasing is not a recognized type falls back to the load
profile. -/
theorem c2_test_profiles (em : EnvMap) :
    getTestOptions em "load" = loadTestOptions em ∧
    ((loadTestOptions em).stages.getD []).length = 3 ∧
    getTestOptions em "stress" = stressTestOptions em ∧
    ((stressTestOptions em).stages.getD []).length = 9 ∧
    getTestOptions em "spike" = spikeTestOptions em ∧
    ((spikeTestOptions em).stages.getD []).length = 6 ∧
    getTestOptions em "endurance" = enduranceTestOptions em ∧
    getTestOptions em "soak" = enduranceTestOptions em ∧
    ((enduranceTestOptions em).stages.getD []).length = 3 ∧
    getTestOptions em "smoke" = smokeTestOptions em ∧
    ∀ t, jsToLower t ∉ (["load", "stress", "spike", "endurance", "soak", "smoke"] : List String) →
      getTestOptions em t = loadTestOptions em := by
  refine ⟨rfl, rfl, rfl, rfl, rfl, rfl, rfl, rfl, rfl, rfl, ?_⟩
  intro t h
  simp only [List.mem_cons, List.not_mem_nil, or_false, not_or] at h
  obtain ⟨h1, h2, h3, h4, h5, h6⟩ := h
  simp [getTestOptions, h1, h2, h3, h4, h5, h6]

/-- C2 (witness): the amended theorem applied to the empty process
environment and the unrecognized test type `chaos`. -/
theorem c2_test_profiles_witness :
    getTestOptions (fun _ => none) "chaos" = loadTestOptions (fun _ => none) :=
  (c2_test_profiles (fun _ => none)).2.2.2.2.2.2.2.2.2.2 "chaos" (by decide)

/-- C3: threshold resolution - prod resolves to the strict tier with the
endpoint overrides winning on key collision, dev resolves to the relaxed
tier alone, every other environment string resolves to the default tier
with the endpoint overrides winning; and for every environment other
than dev the result contains every key of the endpoint-override table. -/
theorem c3_threshold_resolution (em : EnvMap) :
    (∀ k, (getThresholdsForEnvironment em "prod").lookup k =
      (endpointThresholds.lookup k).or (strictThresholds.lookup k)) ∧
    getThresholdsForEnvironment em "dev" = relaxedThresholds ∧
    (∀ e, e ≠ "prod" → e ≠ "dev" → ∀ k,
      (getThresholdsForEnvironment em e).lookup k =
        (endpointThresholds.lookup k).or ((defaultThresholds em).lookup k)) ∧
    (∀ e, e ≠ "dev" → ∀ k, (endpointThresholds.lookup k).isSome = true →
      ((getThresholdsForEnvironment em e).lookup k).isSome = true) := by
  refine ⟨?_, rfl, ?_, ?_⟩
  · intro k
    simp [getThresholdsForEnvironment, lookup_jsSpread]
  · intro e h1 h2 k
    simp [getThresholdsForEnvironment, h1, h2, lookup_jsSpread]
  · intro e h k hk
    obtain ⟨v, hv⟩ := Option.isSome_iff_exists.mp hk
    by_cases he : e = "prod"
    · subst he
      simp [getThresholdsForEnvironment, lookup_jsSpread, hv]
    · simp [getThresholdsForEnvironment, he, h, lookup_jsSpread, hv]

/-- C3 (witness): the theorem applied to the empty process environment,
the qa environment and the login endpoint-override key. -/
theorem c3_threshold_resolution_witness :
    ((getThresholdsForEnvironment (fun _ => none) "qa").lookup
      "http_req_duration\x7bendpoint:login\x7d").isSome = true :=
  (c3_threshold_resolution (fun _ => none)).2.2.2 "qa" (by decide)
    "http_req_duration\x7bendpoint:login\x7d" (by decide)

/-- C4 (counterexample): a 429 response whose only header is
`Retry-After: 5` waits 60 seconds, not the 5 seconds the claim requires,
because no rate-limit record is extractable without a limit header. -/
theorem c4_counterexample :
    (fun k => if k = "Retry-After" then some "5" else none : String → Option String)
      "Retry-After" = some "5" ∧
    isRateLimited
      { status := 429
        headers := fun k => if k = "Retry-After" then some "5" else none } = true ∧
    (handleRateLimit
      { status := 429
        headers := fun k => if k = "Retry-After" then some "5" else none } 0).2 =
      some 60 ∧
    (60 : Int) ≠ 5 := by
  exact ⟨rfl, by decide, by decide, by decide⟩

/-- C4 (amended): for every rate-limited response, `handleRateLimit`
returns true after sleeping for a wait that is computed from the
extractable rate-limit record: the parsed retry-after value when the
record carries one, otherwise `max(reset - now, 0) + 1` when the record
carries a non-zero reset, otherwise 60 seconds; and when no record is
extractable (no non-zero limit header - even if a Retry-After header is
present) the wait is the 60-second default. -/
theorem c4_rate_limit_wait (r : Response) (now : Int)
    (h : isRateLimited r = true) :
    (handleRateLimit r now).1 = true ∧
    (extractRateLimitInfo r.headers = none →
      (handleRateLimit r now).2 = some 60) ∧
    (∀ i, extractRateLimitInfo r.headers = some i →
      (∀ ra, i.retryAfter = some ra → (handleRateLimit r now).2 = some ra) ∧
      (i.retryAfter = none → i.reset ≠ 0 →
        (handleRateLimit r now).2 = some (max (i.reset - now) 0 + 1)) ∧
      (i.retryAfter = none → i.reset = 0 →
        (handleRateLimit r now).2 = some 60)) := by
  refine ⟨by simp [handleRateLimit, h], ?_, ?_⟩
  · intro he
    simp [handleRateLimit, h, he]
  · intro i hi
    refine ⟨?_, ?_, ?_⟩
    · intro ra hra
      simp [handleRateLimit, h, hi, hra]
    · intro hra hrs
      simp [handleRateLimit, h, hi, hra, hrs]
    · intro hra hrs
      simp [handleRateLimit, h, hi, hra, hrs]

/-- C4 (witness): the amended theorem applied to a response with
remaining 0, a limit header and `Retry-After: 30` - the wait is exactly
30 seconds. -/
theorem c4_rate_limit_wait_witness :
    (handleRateLimit
      { status := 200
        headers := fun k =>
          if k = "X-RateLimit-Limit" then some "100"
          else if k = "X-RateLimit-Remaining" then some "0"
          else if k = "Retry-After" then some "30" else none } 0).2 = some 30 :=
  (((c4_rate_limit_wait
      { status := 200
        headers := fun k =>
          if k = "X-RateLimit-Limit" then some "100"
          else if k = "X-RateLimit-Remaining" then some "0"
          else if k = "Retry-After" then some "30" else none } 0
      (by decide)).2.2
    { limit := 100, remaining := 0, reset := 0, retryAfter := some 30 }
    (by decide)).1 30 rfl)

/-- C5 (counterexample): with a limit header present but equal to `0`,
`extractRateLimitInfo` returns nothing - the claimed equivalence
(a record exactly when a limit header is present) fails. -/
theorem c5_counterexample :
    (fun k => if k = "X-RateLimit-Limit" then some "0" else none : String → Option String)
      "X-RateLimit-Limit" = some "0" ∧
    extractRateLimitInfo
      (fun k => if k = "X-RateLimit-Limit" then some "0" else none) = none := by
  exact ⟨rfl, by decide⟩

/-- C5 (amended): `extractRateLimitInfo` returns a record exactly when
the first non-empty limit-header value (either header-name variant,
defaulting to the string `0`) parses under `parseInt` to a non-zero
number; in particular it returns nothing whenever no limit header is
present. -/
theorem c5_extract_iff (headers : String → Option String) :
    ((extractRateLimitInfo headers).isSome = true ↔
      ∃ n : Int, n ≠ 0 ∧
        parseIntJS (rlHeaderRaw headers "X-RateLimit-Limit" "X-Rate-Limit-Limit") =
          some n) ∧
    (headers "X-RateLimit-Limit" = none → headers "X-Rate-Limit-Limit" = none →
      extractRateLimitInfo headers = none) := by
  constructor
  · cases hp : parseIntJS (rlHeaderRaw headers "X-RateLimit-Limit" "X-Rate-Limit-Limit") with
    | none =>
      simp [extractRateLimitInfo, jsToNull, hp]
    | some n =>
      by_cases hn : n = 0
      · subst hn
        simp [extractRateLimitInfo, jsToNull, hp]
      · simp [extractRateLimitInfo, jsToNull, hp, hn]
  · intro h1 h2
    have hraw : rlHeaderRaw headers "X-RateLimit-Limit" "X-Rate-Limit-Limit" = "0" := by
      simp [rlHeaderRaw, jsOrS, h1, h2]
    have hz : jsToNull (parseIntJS "0") = none := by decide
    simp [extractRateLimitInfo, hraw, hz]

/-- C5 (witness): the amended theorem applied to a header table with the
limit header set to 100 (record present) and to the empty header table
(record absent). -/
theorem c5_extract_iff_witness :
    (extractRateLimitInfo
      (fun k => if k = "X-RateLimit-Limit" then some "100" else none)).isSome = true ∧
    extractRateLimitInfo (fun _ => none) = none :=
  ⟨(c5_extract_iff
      (fun k => if k = "X-RateLimit-Limit" then some "100" else none)).1.mpr
      ⟨100, by decide, by decide⟩,
    (c5_extract_iff (fun _ => none)).2 rfl rfl⟩

/-- C6 (counterexample): a base URL ending in two slashes keeps a double
slash at the join, because the source strips at most one trailing slash:
the stripped base still ends in a slash and the endpoint contributes a
leading slash. -/
theorem c6_counterexample :
    strEndsWith "http://h//" '/' = true ∧
    buildUrl "http://h//" "status" = "http://h//status" ∧
    strEndsWith (stripTrailingSlash "http://h//") '/' = true := by
  exact ⟨by decide, by decide, by decide⟩

/-- C6 (amended): the cleaned endpoint always starts with a slash; for
every endpoint not starting with a slash, `buildUrl` agrees with the
slash-prefixed endpoint under the same base URL; and for every base URL
ending in exactly one trailing slash (the remainder not itself ending in
a slash) the stripped base does not end in a slash, so the join of base
and endpoint is free of a double slash. -/
theorem c6_build_url (base e : String) :
    strStartsWith (cleanEndpoint e) '/' = true ∧
    (strStartsWith e '/' = false → buildUrl base e = buildUrl base ("/" ++ e)) ∧
    (strEndsWith base '/' = true → strEndsWith (dropLastStr base) '/' = false →
      strEndsWith (stripTrailingSlash base) '/' = false) := by
  have hclean : ∀ s : String, strStartsWith (cleanEndpoint s) '/' = true := by
    intro s
    by_cases h : strStartsWith s '/' = true
    · simp [cleanEndpoint, h]
    · simp only [cleanEndpoint, h, if_neg, Bool.false_eq_true, ite_false]
      simp [strStartsWith, String.data_append]
  refine ⟨hclean e, ?_, ?_⟩
  · intro h
    have h2 : strStartsWith ("/" ++ e) '/' = true := by
      simp [strStartsWith, String.data_append]
    simp [buildUrl, cleanEndpoint, h, h2]
  · intro hb hrest
    simpa [stripTrailingSlash, hb] using hrest

/-- C6 (witness): the amended theorem applied to a base URL with one
trailing slash and the endpoint `status`. -/
theorem c6_build_url_witness :
    buildUrl "http://h/" "status" = buildUrl "http://h/" "/status" ∧
    strEndsWith (stripTrailingSlash "http://h/") '/' = false :=
  ⟨(c6_build_url "http://h/" "status").2.1 (by decide),
    (c6_build_url "http://h/" "status").2.2 (by decide) (by decide)⟩

/-- C7: in every verb helper the outgoing headers are the default headers
spread with the caller-supplied headers, and on every key collision the
caller value wins: any key bound in the caller map keeps its caller value
in the outgoing request. -/
theorem c7_header_precedence (env : EnvironmentConfig) (endpoint : String)
    (p : RequestParams) (k v : String)
    (h : p.headers.lookup k = some v) :
    (httpGet env endpoint p).headers.lookup k = some v ∧
    (httpPost env endpoint p).headers.lookup k = some v ∧
    (httpPut env endpoint p).headers.lookup k = some v ∧
    (httpPatch env endpoint p).headers.lookup k = some v ∧
    (httpDelete env endpoint p).headers.lookup k = some v := by
  have hh : (requestHeaders env p).lookup k = some v := by
    simp [requestHeaders, lookup_jsSpread, h]
  exact ⟨hh, hh, hh, hh, hh⟩

/-- C7 (witness): a caller-supplied `Content-Type` of `text/xml` replaces
the default `application/json` in the outgoing GET request. -/
theorem c7_header_precedence_witness :
    (getDefaultHeaders (prodConfig (fun _ => none)) true).lookup "Content-Type" =
      some "application/json" ∧
    (httpGet (prodConfig (fun _ => none)) "/status"
      { headers := [("Content-Type", "text/xml")] }).headers.lookup "Content-Type" =
      some "text/xml" :=
  ⟨by decide,
    (c7_header_precedence (prodConfig (fun _ => none)) "/status"
      { headers := [("Content-Type", "text/xml")] } "Content-Type" "text/xml"
      (by decide)).1⟩

/-- C8: `checkGetSuccess` reports false whenever the status is 200 but
the response time exceeds the ceiling, and false whenever the body does
not parse as JSON, even with status 200 - the k6 check returns the
conjunction of its registered predicates. -/
theorem c8_check_get_success (r : Response) (maxResponseTime : ℚ) :
    (r.status = 200 → maxResponseTime < r.durationMs →
      checkGetSuccess r maxResponseTime = false) ∧
    (r.jsonResult = none → checkGetSuccess r maxResponseTime = false) := by
  constructor
  · intro _ h2
    have hlt : ¬ (r.durationMs < maxResponseTime) := not_lt_of_gt h2
    simp [checkGetSuccess, hlt]
  · intro h
    simp [checkGetSuccess, h]

/-- C8 (witness): a 200 response with valid JSON but 1500 ms duration
fails the 1000 ms ceiling, and a 200 fast response with an unparseable
body fails as well. -/
theorem c8_check_get_success_witness :
    checkGetSuccess
      { status := 200, durationMs := 1500, body := JsBody.str "x"
        jsonResult := some Json.null } 1000 = false ∧
    checkGetSuccess
      { status := 200, durationMs := 10, body := JsBody.str "not json"
        jsonResult := none } 1000 = false :=
  ⟨(c8_check_get_success
      { status := 200, durationMs := 1500, body := JsBody.str "x"
        jsonResult := some Json.null } 1000).1 rfl (by norm_num),
    (c8_check_get_success
      { status := 200, durationMs := 10, body := JsBody.str "not json"
        jsonResult := none } 1000).2 rfl⟩

/-- C9: the dot-path traversal checks return false - and, being total
functions of the embedding, cannot raise - whenever the optional
traversal of the parsed JSON fails, that is whenever any intermediate
key of the path is absent (including when the body did not parse at
all). -/
theorem c9_path_traversal_safe (r : Response) (fieldPath : String)
    (h : ∀ j, r.jsonResult = some j →
      jsonPathLookup j (splitChar '.' fieldPath) = none) :
    checkJsonHasField r fieldPath = false ∧
    ∀ expected, checkJsonFieldEquals r fieldPath expected = false := by
  cases hr : r.jsonResult with
  | none =>
    constructor
    · simp [checkJsonHasField, hr]
    · intro expected
      simp [checkJsonFieldEquals, hr]
  | some j =>
    have hn := h j hr
    constructor
    · simp only [checkJsonHasField, hr]
      exact jsonPathAux_false_of_lookup_none _ j hn
    · intro expected
      simp only [checkJsonFieldEquals, hr]
      exact jsonPathEqAux_false_of_lookup_none _ j expected hn

/-- C9 (witness): on the parsed body with a single field `a`, the path
`b.c` has an absent first key and both checks return false. -/
theorem c9_path_traversal_safe_witness :
    checkJsonHasField { jsonResult := some (Json.obj [("a", Json.num 1)]) } "b.c" =
      false ∧
    checkJsonFieldEquals { jsonResult := some (Json.obj [("a", Json.num 1)]) } "b.c"
      (Json.num 2) = false := by
  have H := c9_path_traversal_safe
    { jsonResult := some (Json.obj [("a", Json.num 1)]) } "b.c"
    (by
      intro j hj
      simp only [Option.some.injEq] at hj
      subst hj
      rfl)
  exact ⟨H.1, H.2 (Json.num 2)⟩

/-- C10: `calculateOptimalThinkTime` always returns at least 0.1 seconds,
and returns exactly 1 second whenever no rate-limit record is extractable
or the parsed remaining count is zero. -/
theorem c10_think_time (r : Response) (now : Int) :
    (1 / 10 : ℚ) ≤ calculateOptimalThinkTime r now ∧
    ((extractRateLimitInfo r.headers = none ∨
      ∃ i, extractRateLimitInfo r.headers = some i ∧ i.remaining = 0) →
      calculateOptimalThinkTime r now = 1) := by
  constructor
  · cases h : extractRateLimitInfo r.headers with
    | none =>
      simp [calculateOptimalThinkTime, h]
      norm_num
    | some i =>
      by_cases hrem : i.remaining = 0
      · simp [calculateOptimalThinkTime, h, hrem]
        norm_num
      · simp only [calculateOptimalThinkTime, h, hrem, if_false]
        exact le_max_right _ _
  · rintro (h | ⟨i, hi, hrem⟩)
    · simp [calculateOptimalThinkTime, h]
    · simp [calculateOptimalThinkTime, hi, hrem]

/-- C10 (witness): the theorem applied to a response with no rate-limit
headers gives exactly 1 second. -/
theorem c10_think_time_witness :
    calculateOptimalThinkTime { headers := fun _ => none } 0 = 1 :=
  (c10_think_time { headers := fun _ => none } 0).2 (Or.inl (by decide))
